import Mathlib

/-!
Verification of the zabbix_utils client library (repository
s3mPr1linux/PYTHON_ZABBIX_UTILS) against its natural-language
specification.

The repository ships `zabbix_utils/logger.py`, the test suite
`tests/test_zabbix_api.py` and a PSK example; the implementation modules
`zabbix_utils/api.py` and `zabbix_utils/utils.py` (classes `ZabbixAPI`,
`ZabbixAPIVersion`, `ZabbixAPIUtils`) are not part of the excerpt.  Those
classes are therefore modelled from the specification, with every
behavioral choice pinned by the literal test cases of
`tests/test_zabbix_api.py`, which exercise the missing code directly.
Machine integers do not overflow in any of the modelled code paths
(version components, string lengths), so Nat/Int/Rat are used directly.
-/

/-- Number of decimal digits of a natural number, computed with explicit
fuel so that the kernel can evaluate it.  The fuel `numDigitsAux n n`
always suffices because `n / 10 < n` for `n ≥ 10`. -/
def numDigitsAux : Nat → Nat → Nat
  | 0, _ => 1
  | fuel + 1, n => if n < 10 then 1 else numDigitsAux fuel (n / 10) + 1

/-- Number of decimal digits of a natural number (1 for 0). -/
def numDigits (n : Nat) : Nat := numDigitsAux n n

/-- Value of a list of decimal digit characters, most significant first. -/
def digitsToNat (ds : List Char) : Nat :=
  ds.foldl (fun a c => a * 10 + (c.toNat - 48)) 0

/-- Modelled from the spec: the `ZabbixAPIVersion` value produced by
parsing a platform version string of shape `D.D.D<suffix>` (the class
lives in the missing `zabbix_utils/api.py`).  `first`, `second`, `third`
are the three numeric dot-components; `text` is the trailing non-numeric
suffix. -/
structure ZabbixAPIVersion where
  first : Nat
  second : Nat
  third : Nat
  text : String
deriving Repr, DecidableEq

/-- Modelled from the spec: parsing of a version string by the missing
`ZabbixAPIVersion.__init__` (tests `TestZabbixAPIVersion.test_init`).
The string must consist of a maximal non-empty run of digits, a dot, a
second such run, a dot, a third such run, and then a tail containing no
digit (the regex `\d+\.\d+\.\d+\D*`); any other shape — a two-component
string, a bare integer — yields `none` (the code raises `TypeError`
there, modelled as the `none` branch). -/
def parseVersion (s : String) : Option ZabbixAPIVersion :=
  if (s.toList.span Char.isDigit).1 ≠ [] ∧
      (s.toList.span Char.isDigit).2.head? = some '.' then
    if ((s.toList.span Char.isDigit).2.tail.span Char.isDigit).1 ≠ [] ∧
        ((s.toList.span Char.isDigit).2.tail.span Char.isDigit).2.head? = some '.' then
      if (((s.toList.span Char.isDigit).2.tail.span Char.isDigit).2.tail.span Char.isDigit).1 ≠ [] ∧
          ¬(((s.toList.span Char.isDigit).2.tail.span Char.isDigit).2.tail.span Char.isDigit).2.any Char.isDigit then
        some ⟨digitsToNat (s.toList.span Char.isDigit).1,
              digitsToNat ((s.toList.span Char.isDigit).2.tail.span Char.isDigit).1,
              digitsToNat (((s.toList.span Char.isDigit).2.tail.span Char.isDigit).2.tail.span Char.isDigit).1,
              String.mk (((s.toList.span Char.isDigit).2.tail.span Char.isDigit).2.tail.span Char.isDigit).2⟩
      else none
    else none
  else none

/-- Modelled from the spec: the `major` property — the feature version
`first.second` read as a decimal number (e.g. "6.2.0" gives 6.2,
"6.0.10" gives 6.0), as a rational.  Built with `mkRat` so that the
kernel can evaluate it; the lemma `major_eq_add_div` below restates it
in the spec's `first + second/10^digits` form. -/
def ZabbixAPIVersion.major (v : ZabbixAPIVersion) : ℚ :=
  mkRat (v.first * 10 ^ numDigits v.second + v.second) (10 ^ numDigits v.second)

/-- Modelled from the spec: the `minor` property — the integer patch
number, i.e. the third dot-component (test
`TestZabbixAPIVersion.test_minor`: minor of "6.0.10alpha" is 10). -/
def ZabbixAPIVersion.minor (v : ZabbixAPIVersion) : Nat := v.third

/-- Modelled from the spec: `is_lts()`.  The test
`TestZabbixAPIVersion.test_is_lts` pins the arithmetic: "7.0.0" and
"7.0.30" are LTS while "6.0.10alpha", "6.2.0" and "6.4.5" are not, so
the check is on the second dot-component (not the patch) together with
the first component being at least 7. -/
def ZabbixAPIVersion.is_lts (v : ZabbixAPIVersion) : Bool :=
  v.second == 0 && decide (7 ≤ v.first)

example : parseVersion "7.0.0alpha" = some ⟨7, 0, 0, "alpha"⟩ := by decide
example : parseVersion "6.0" = none := by decide
example : parseVersion "7" = none := by decide
example : parseVersion "6.4.0" = some ⟨6, 4, 0, ""⟩ := by decide
example : ZabbixAPIVersion.major ⟨6, 2, 0, ""⟩ = mkRat 31 5 := by decide
example : ZabbixAPIVersion.major ⟨6, 0, 10, "alpha"⟩ = 6 := by decide

/-- The `major` value really is `first + second / 10 ^ digits`, the
spec's decimal-reading formula. -/
theorem major_eq_add_div (v : ZabbixAPIVersion) :
    v.major = v.first + (v.second : ℚ) / (10 ^ numDigits v.second) := by
  unfold ZabbixAPIVersion.major
  rw [Rat.mkRat_eq_divInt, Rat.divInt_eq_div]
  push_cast
  rw [add_div, mul_div_assoc, div_self (by positivity), mul_one]
example : ZabbixAPIVersion.is_lts ⟨7, 0, 30, ""⟩ = true := by decide
example : ZabbixAPIVersion.is_lts ⟨6, 0, 10, "alpha"⟩ = false := by decide

/-- Fuel bound for the digit count: any `n` within the fuel is below
`10 ^ numDigitsAux fuel n`. -/
theorem lt_ten_pow_numDigitsAux :
    ∀ fuel n : Nat, n ≤ fuel → n < 10 ^ numDigitsAux fuel n := by
  intro fuel
  induction fuel with
  | zero =>
    intro n hn
    have : n = 0 := Nat.le_zero.mp hn
    simp [this, numDigitsAux]
  | succ f ih =>
    intro n hn
    by_cases h10 : n < 10
    · simp [numDigitsAux, h10]
    · have hn0 : 0 < n := by omega
      have hdiv : n / 10 < n := Nat.div_lt_self hn0 (by omega)
      have hfuel : n / 10 ≤ f := by omega
      have hih := ih (n / 10) hfuel
      have hmod : n % 10 < 10 := Nat.mod_lt _ (by omega)
      have hdm : 10 * (n / 10) + n % 10 = n := Nat.div_add_mod n 10
      simp only [numDigitsAux, h10, if_false, pow_succ]
      calc n < 10 * (n / 10 + 1) := by omega
        _ ≤ 10 * 10 ^ numDigitsAux f (n / 10) := by
            exact Nat.mul_le_mul_left 10 (by omega)
        _ = 10 ^ numDigitsAux f (n / 10) * 10 := by ring

/-- Any natural number is below `10` to its digit count. -/
theorem lt_ten_pow_numDigits (n : Nat) : n < 10 ^ numDigits n :=
  lt_ten_pow_numDigitsAux n n le_rfl

/-- A list splits under `takeWhile`/`dropWhile` exactly at an appended
boundary whose left part satisfies the predicate throughout and whose
right part starts with a failing element. -/
theorem takeWhile_append_eq {α : Type} (p : α → Bool) :
    ∀ a b : List α, (∀ x ∈ a, p x = true) →
      (∀ c r, b = c :: r → p c = false) →
      (a ++ b).takeWhile p = a ∧ (a ++ b).dropWhile p = b := by
  intro a
  induction a with
  | nil =>
    intro b _ hb
    cases b with
    | nil => exact ⟨rfl, rfl⟩
    | cons c r =>
      have hc := hb c r rfl
      exact ⟨by simp [List.takeWhile_cons, hc], by simp [List.dropWhile_cons, hc]⟩
  | cons x xs ih =>
    intro b ha hb
    have hx : p x = true := ha x (List.mem_cons_self x xs)
    have hxs := ih b (fun y hy => ha y (List.mem_cons_of_mem x hy)) hb
    exact ⟨by simp [List.takeWhile_cons, hx, hxs.1],
           by simp [List.dropWhile_cons, hx, hxs.2]⟩

/-- The `span` of a list around such a boundary is exactly the split at
the boundary. -/
theorem span_append_eq {α : Type} (p : α → Bool) (a b : List α)
    (ha : ∀ x ∈ a, p x = true) (hb : ∀ c r, b = c :: r → p c = false) :
    (a ++ b).span p = (a, b) := by
  rw [List.span_eq_take_drop, (takeWhile_append_eq p a b ha hb).1,
    (takeWhile_append_eq p a b ha hb).2]

/-- Characterization of acceptance by the version parser: a string is
accepted exactly when it decomposes as a non-empty digit run, a dot, a
non-empty digit run, a dot, a non-empty digit run and a digit-free
tail. -/
theorem parse_shape (s : String) :
    (parseVersion s).isSome = true ↔
      ∃ a b c t : List Char,
        s.toList = a ++ ('.' :: (b ++ ('.' :: (c ++ t)))) ∧
        a ≠ [] ∧ (∀ x ∈ a, x.isDigit = true) ∧
        b ≠ [] ∧ (∀ x ∈ b, x.isDigit = true) ∧
        c ≠ [] ∧ (∀ x ∈ c, x.isDigit = true) ∧
        (∀ x ∈ t, x.isDigit = false) := by
  constructor
  · intro hsome
    unfold parseVersion at hsome
    rcases hspan1 : s.toList.span Char.isDigit with ⟨d1, r1⟩
    rw [hspan1] at hsome
    split_ifs at hsome with h1 h2 h3
    rotate_left
    · simp at hsome
    · simp at hsome
    · simp at hsome
    obtain ⟨h1a, h1b⟩ := h1
    obtain ⟨c1, r2, rfl⟩ : ∃ c r, r1 = c :: r := by
      cases r1 with
      | nil => simp at h1b
      | cons c r => exact ⟨c, r, rfl⟩
    have hc1 : c1 = '.' := by simpa using h1b
    subst hc1
    simp only [List.tail_cons] at h2 h3 hsome
    rcases hspan2 : r2.span Char.isDigit with ⟨d2, r3⟩
    rw [hspan2] at h2 h3
    obtain ⟨h2a, h2b⟩ := h2
    obtain ⟨c2, r4, rfl⟩ : ∃ c r, r3 = c :: r := by
      cases r3 with
      | nil => simp at h2b
      | cons c r => exact ⟨c, r, rfl⟩
    have hc2 : c2 = '.' := by simpa using h2b
    subst hc2
    simp only [List.tail_cons] at h3
    rcases hspan3 : r4.span Char.isDigit with ⟨d3, r5⟩
    rw [hspan3] at h3
    obtain ⟨h3a, h3b⟩ := h3
    rw [List.span_eq_take_drop] at hspan1 hspan2 hspan3
    have ha1 : s.toList.takeWhile Char.isDigit = d1 := congrArg Prod.fst hspan1
    have hb1 : s.toList.dropWhile Char.isDigit = '.' :: r2 := congrArg Prod.snd hspan1
    have ha2 : r2.takeWhile Char.isDigit = d2 := congrArg Prod.fst hspan2
    have hb2 : r2.dropWhile Char.isDigit = '.' :: r4 := congrArg Prod.snd hspan2
    have ha3 : r4.takeWhile Char.isDigit = d3 := congrArg Prod.fst hspan3
    have hb3 : r4.dropWhile Char.isDigit = r5 := congrArg Prod.snd hspan3
    refine ⟨d1, d2, d3, r5, ?_, h1a, ?_, h2a, ?_, h3a, ?_, ?_⟩
    · calc s.toList = s.toList.takeWhile Char.isDigit ++ s.toList.dropWhile Char.isDigit :=
            (List.takeWhile_append_dropWhile Char.isDigit s.toList).symm
        _ = d1 ++ ('.' :: r2) := by rw [ha1, hb1]
        _ = d1 ++ ('.' :: (r2.takeWhile Char.isDigit ++ r2.dropWhile Char.isDigit)) := by
            rw [List.takeWhile_append_dropWhile]
        _ = d1 ++ ('.' :: (d2 ++ ('.' :: r4))) := by rw [ha2, hb2]
        _ = d1 ++ ('.' :: (d2 ++ ('.' :: (r4.takeWhile Char.isDigit ++ r4.dropWhile Char.isDigit)))) := by
            rw [List.takeWhile_append_dropWhile]
        _ = d1 ++ ('.' :: (d2 ++ ('.' :: (d3 ++ r5)))) := by rw [ha3, hb3]
    · intro x hx; rw [← ha1] at hx; exact List.mem_takeWhile_imp hx
    · intro x hx; rw [← ha2] at hx; exact List.mem_takeWhile_imp hx
    · intro x hx; rw [← ha3] at hx; exact List.mem_takeWhile_imp hx
    · intro x hx
      have hfalse : r5.any Char.isDigit = false := by
        rw [Bool.not_eq_true] at h3b; exact h3b
      simpa using List.any_eq_false.mp hfalse x hx
  · rintro ⟨a, b, c, t, heq, ha0, ha, hb0, hb, hc0, hc, ht⟩
    have hdot : Char.isDigit '.' = false := by decide
    have hspan1 : s.toList.span Char.isDigit = (a, '.' :: (b ++ ('.' :: (c ++ t)))) := by
      rw [heq]
      exact span_append_eq _ _ _ ha
        (fun ch r hr => by rw [← (List.cons.inj hr).1]; exact hdot)
    have hspan2 : (b ++ ('.' :: (c ++ t))).span Char.isDigit = (b, '.' :: (c ++ t)) :=
      span_append_eq _ _ _ hb (fun ch r hr => by rw [← (List.cons.inj hr).1]; exact hdot)
    have hspan3 : (c ++ t).span Char.isDigit = (c, t) :=
      span_append_eq _ _ _ hc
        (fun ch r hr => ht ch (by rw [hr]; exact List.mem_cons_self ch r))
    unfold parseVersion
    rw [hspan1]
    simp only [List.tail_cons]
    rw [hspan2]
    simp only [List.tail_cons]
    rw [hspan3]
    have hany : t.any Char.isDigit = false :=
      List.any_eq_false.mpr (fun x hx => by simp [ht x hx])
    rw [if_pos ⟨ha0, rfl⟩, if_pos ⟨hb0, rfl⟩, if_pos ⟨hc0, by rw [hany]; simp⟩]
    rfl

/-- Modelled from the spec: the kinds of Python values the tests compare
a `ZabbixAPIVersion` against — another version object, an int, a float
(modelled as a rational), a string, a dict or a list
(`TestZabbixAPIVersion.test_compare`). -/
inductive PyValue
| ver (v : ZabbixAPIVersion)
| int (n : Int)
| float (q : ℚ)
| str (s : String)
| dict
| list

/-- The six rich-comparison operators of the version class. -/
inductive CmpOp
| eq | ne | lt | le | gt | ge
deriving Repr, DecidableEq

/-- Evaluation of a comparison operator on rationals. -/
def CmpOp.onRat : CmpOp → ℚ → ℚ → Bool
  | .eq, a, b => decide (a = b)
  | .ne, a, b => decide (a ≠ b)
  | .lt, a, b => decide (a < b)
  | .le, a, b => decide (a ≤ b)
  | .gt, a, b => decide (b < a)
  | .ge, a, b => decide (b ≤ a)

/-- Evaluation of a comparison operator on integers. -/
def CmpOp.onInt : CmpOp → Int → Int → Bool
  | .eq, a, b => decide (a = b)
  | .ne, a, b => decide (a ≠ b)
  | .lt, a, b => decide (a < b)
  | .le, a, b => decide (a ≤ b)
  | .gt, a, b => decide (b < a)
  | .ge, a, b => decide (b ≤ a)

/-- The error raised on an incomparable operand (Python `TypeError`). -/
inductive CompareError
| typeError
deriving Repr, DecidableEq

/-- Decidable equality of `Except` results, needed to evaluate the
modelled fallible operations on concrete inputs. -/
instance {ε α : Type} [DecidableEq ε] [DecidableEq α] :
    DecidableEq (Except ε α) := fun x y =>
  match x, y with
  | .ok a, .ok b =>
    if h : a = b then isTrue (by rw [h])
    else isFalse (fun hc => h (Except.ok.inj hc))
  | .ok _, .error _ => isFalse (fun hc => Except.noConfusion hc)
  | .error _, .ok _ => isFalse (fun hc => Except.noConfusion hc)
  | .error e, .error f =>
    if h : e = f then isTrue (by rw [h])
    else isFalse (fun hc => h (Except.error.inj hc))

/-- Modelled from the spec: rich comparison of a `ZabbixAPIVersion`.
The spec says comparison is by `major` value against another version or
a plain number and fails with a type error otherwise; the tests pin two
refinements: an `int` operand is compared against the integer first
component only (`ZabbixAPIVersion("6.4.1") > 6` is `False`), and a
string operand that itself parses as a full version is accepted
(`__eq__("6.0.0")` is `True`) while a non-parsing string such as "7.0"
raises `TypeError`. -/
def ZabbixAPIVersion.compare (v : ZabbixAPIVersion) (op : CmpOp)
    (other : PyValue) : Except CompareError Bool :=
  match other with
  | .ver w => .ok (op.onRat v.major w.major)
  | .int n => .ok (op.onInt v.first n)
  | .float q => .ok (op.onRat v.major q)
  | .str s =>
    match parseVersion s with
    | some w => .ok (op.onRat v.major w.major)
    | none => .error .typeError
  | .dict => .error .typeError
  | .list => .error .typeError

example : ZabbixAPIVersion.compare ⟨6, 0, 0, ""⟩ .eq (.str "6.0.0") = .ok true := by decide
example : ZabbixAPIVersion.compare ⟨6, 0, 0, ""⟩ .ne (.int 6) = .ok false := by decide
example : ZabbixAPIVersion.compare ⟨6, 0, 0, ""⟩ .ge (.float 6) = .ok true := by decide
example : ZabbixAPIVersion.compare ⟨6, 0, 0, ""⟩ .lt (.float 7) = .ok true := by decide
example : ZabbixAPIVersion.compare ⟨6, 4, 1, ""⟩ .gt (.int 6) = .ok false := by decide
example : ZabbixAPIVersion.compare ⟨6, 0, 0, ""⟩ .gt .dict = .error .typeError := by decide
example : ZabbixAPIVersion.compare ⟨6, 0, 0, ""⟩ .lt .list = .error .typeError := by decide
example : ZabbixAPIVersion.compare ⟨6, 0, 0, ""⟩ .le (.str "7.0") = .error .typeError := by decide

/-- Modelled from the spec: the fixed mask token `ZabbixAPIUtils.HIDINGMASK`
that replaces hidden sensitive data (the class lives in the missing
`zabbix_utils/utils.py`; the tests use the constant only symbolically). -/
def HIDINGMASK : String := "********"

/-- Modelled from the spec: `ZabbixAPIUtils.secreter(string, show_len)`.
The spec leaves the exact short-string boundary open and directs the
implementer to derive the arithmetic from the literal cases; the test
`TestZabbixAPIUtils.test_secreter` pins it: with `show_len = 0` the
string is returned unchanged; a string shorter than one-and-a-half times
`show_len` collapses to the mask token alone (length 6 with
`show_len = 5`, length 17 with `show_len = 20`); otherwise the first
`show_len` and last `show_len` characters surround the mask (length 17
with `show_len` 4 or 10, length 34 with `show_len` 2). -/
def secreter (s : String) (show_len : Nat) : String :=
  if show_len = 0 then s
  else if 2 * s.length < 3 * show_len then HIDINGMASK
  else
    String.mk (s.toList.take show_len) ++ HIDINGMASK ++
      String.mk (s.toList.drop (s.length - show_len))

example : secreter "lZSwaQ" 5 = HIDINGMASK := by decide
example : secreter "ZWvaGS5SzNGaR990f" 4 = "ZWva" ++ HIDINGMASK ++ "990f" := by decide
example : secreter "KZneJzgRzdlWcUjJj" 10 = "KZneJzgRzd" ++ HIDINGMASK ++ "RzdlWcUjJj" := by decide
example : secreter "g5imzEr7TPcBG47fa" 20 = HIDINGMASK := by decide
example : secreter "In8y4eGughjBNSqEGPcqzejToVUT3OA4q5" 2 = "In" ++ HIDINGMASK ++ "q5" := by decide
example : secreter "Z8pZom5EVbRZ0W5wz" 0 = "Z8pZom5EVbRZ0W5wz" := by decide

/-- Modelled from the spec: `ZabbixAPIUtils.cutter(string, max_len, dots)`.
The test `TestZabbixAPIUtils.test_cutter` pins the behavior: the string
is cut to its first `max_len` characters, and the ellipsis is appended
only when the flag is set AND the original string was actually longer
than `max_len` (a 17-character string with `max_len = 20` and dots
enabled comes back unchanged, without dots). -/
def cutter (s : String) (max_len : Nat) (dots : Bool) : String :=
  if max_len < s.length then
    String.mk (s.toList.take max_len) ++ (if dots then "..." else "")
  else s

example : cutter "ZWvaGS5SzNGaR990f" 4 true = "ZWva..." := by decide
example : cutter "KZneJzgRzdlWcUjJj" 10 false = "KZneJzgRzd" := by decide
example : cutter "g5imzEr7TPcBG47fa" 20 true = "g5imzEr7TPcBG47fa" := by decide
example : cutter "In8y4eGughjBNSqEGPcqzejToVUT3OA4q5" 20 true = "In8y4eGughjBNSqEGPcq..." := by decide
example : cutter "Z8pZom5EVbRZ0W5wz" 0 true = "..." := by decide
example : cutter "0gtRoOSbHLZqYR3BF" 0 false = "" := by decide

/-- One positional argument of a Python log record: either a string or
some non-string payload (only the `isinstance(arg, str)` distinction
matters to `SensitiveFilter.filter`). -/
inductive LogArg
| str (s : String)
| other (n : Int)
deriving Repr, DecidableEq

/-- A Python `logging.LogRecord` as far as `SensitiveFilter.filter`
touches it: the format string `msg` and the argument tuple `args`. -/
structure LogRecord where
  msg : String
  args : List LogArg
deriving Repr, DecidableEq

/-- The `SensitiveFilter` object of `zabbix_utils/logger.py`.  Its
`__init__` stores `ZabbixAPIUtils.hide_private` in the instance
attribute `hide_data`; that function lives in the missing
`zabbix_utils/utils.py`, so the attribute is kept abstract here. -/
structure SensitiveFilter where
  hide_data : String → String

/-- Embedding of `SensitiveFilter.filter` from `zabbix_utils/logger.py`:
rewrite `record.msg` through `hide_data`; if the argument tuple is
non-empty (Python truthiness of `record.args`), rewrite its string
elements through `hide_data` and keep the rest; finally return 1. -/
def SensitiveFilter.filter (f : SensitiveFilter) (record : LogRecord) :
    LogRecord × Nat :=
  let record := { record with msg := f.hide_data record.msg }
  let record :=
    if record.args.isEmpty then record
    else { record with
             args := record.args.map fun a =>
               match a with
               | .str s => .str (f.hide_data s)
               | .other n => .other n }
  (record, 1)

example :
    SensitiveFilter.filter ⟨fun s => secreter s 2⟩
      ⟨"password is wine", [.str "In8y4eGughjBNSqEGPcqzejToVUT3OA4q5", .other 7]⟩ =
    (⟨"pa" ++ HIDINGMASK ++ "ne", [.str ("In" ++ HIDINGMASK ++ "q5"), .other 7]⟩, 1) := by decide

/-- Modelled from the spec: the process-wide minimum supported version
boundary `__min_supported__` (the module `zabbix_utils/version.py` is
not in the excerpt; the value is the platform's 5.0 line and claims do
not depend on the concrete number). -/
def minSupported : ℚ := 5

/-- Modelled from the spec: the process-wide maximum supported version
boundary `__max_supported__` (6.4, same caveat as `minSupported`). -/
def maxSupported : ℚ := mkRat 32 5

/-- Modelled from the spec: the version that introduced API tokens.  The
test `TestZabbixAPI.test_version_conditions` pins the boundary between
"5.2.0" (token auth rejected) and "5.4.0" (token auth accepted). -/
def tokenSupportVersion : ℚ := mkRat 27 5

/-- The exceptions raised by the modelled authentication layer:
`ZabbixAPINotSupported` (the spec's `UnsupportedVersion`, also raised
when a token is supplied to a version without token auth) and
`ProcessingException` (insufficient credentials), as imported by
`tests/test_zabbix_api.py` from `zabbix_utils.exceptions`. -/
inductive ZabbixError
| ZabbixAPINotSupported
| ProcessingException
deriving Repr, DecidableEq

/-- Modelled from the spec: the credential state of a `ZabbixAPI`
object — the attributes `session_id` and `_token` that the tests
inspect. -/
structure ZabbixAPI where
  session_id : Option String
  token : Option String
deriving Repr, DecidableEq

/-- Modelled from the spec: `ZabbixAPI.login` (callable at construction
and post-construction).  `ver` is the effective platform version and
`loginResult` the session id the `user.login` RPC would return (the
tests mock it to a fixed string).  The returned list holds the
authenticated RPC methods invoked.  Branching pinned by
`TestZabbixAPI.test_login` and `test_version_conditions`: a token on a
token-supporting version becomes the active credential (`session_id`
and `_token` both hold it, no `user.login` call); a token on an older
version falls back to `user.login` when user and password are present
and raises `ZabbixAPINotSupported` otherwise; user and password alone
go through `user.login`; nothing at all raises `ProcessingException`. -/
def ZabbixAPI.login (ver : ZabbixAPIVersion) (loginResult : String)
    (user password token : Option String) :
    Except ZabbixError (ZabbixAPI × List String) :=
  match token with
  | some t =>
    if tokenSupportVersion ≤ ver.major then
      .ok ({ session_id := some t, token := some t }, [])
    else
      match user, password with
      | some _, some _ =>
        .ok ({ session_id := some loginResult, token := some t }, ["user.login"])
      | _, _ => .error .ZabbixAPINotSupported
  | none =>
    match user, password with
    | some _, some _ =>
      .ok ({ session_id := some loginResult, token := none }, ["user.login"])
    | _, _ => .error .ProcessingException

/-- Modelled from the spec: `ZabbixAPI.__init__`.  Step one is the
version gate: unless `skip_version_check` is set, a fetched version
whose `major` lies outside `[minSupported, maxSupported]` aborts
construction with `ZabbixAPINotSupported` (the spec's
`UnsupportedVersion`) before any credential handling, so no partial
object is created (`TestZabbixAPI.test_check_version`).  Then, only if
some credential was supplied, `login` runs with the given inputs; with
no credentials at all the object is created unauthenticated
(`TestZabbixAPI.test_login` constructs `ZabbixAPI()` without error). -/
def mkZabbixAPI (ver : ZabbixAPIVersion) (loginResult : String)
    (user password token : Option String) (skip_version_check : Bool) :
    Except ZabbixError (ZabbixAPI × List String) :=
  if ¬skip_version_check ∧ (ver.major < minSupported ∨ maxSupported < ver.major) then
    .error .ZabbixAPINotSupported
  else if user.isSome || password.isSome || token.isSome then
    ZabbixAPI.login ver loginResult user password token
  else
    .ok ({ session_id := none, token := none }, [])

/-- Modelled from the spec: `ZabbixAPI.logout`.  Both `session_id` and
`_token` are cleared; the `user.logout` RPC is issued only when a real
login session (not a token) is active, and an already unauthenticated
client is a no-op that performs no call and never raises
(`TestZabbixAPI.test_logout`). -/
def ZabbixAPI.logout (z : ZabbixAPI) : ZabbixAPI × List String :=
  match z.session_id with
  | some _ =>
    if z.token.isSome then ({ session_id := none, token := none }, [])
    else ({ session_id := none, token := none }, ["user.logout"])
  | none => ({ session_id := none, token := none }, [])

example :
    mkZabbixAPI ⟨6, 4, 0, ""⟩ "cc364fb50199c5e305aa91785b7e49a0"
      none none (some "oTmtWu") false =
    .ok ({ session_id := some "oTmtWu", token := some "oTmtWu" }, []) := by decide
example :
    mkZabbixAPI ⟨6, 4, 0, ""⟩ "cc364fb50199c5e305aa91785b7e49a0"
      (some "Admin") (some "zabbix") (some "oTmtWu") false =
    .ok ({ session_id := some "oTmtWu", token := some "oTmtWu" }, []) := by decide
example :
    mkZabbixAPI ⟨6, 4, 0, ""⟩ "cc364fb50199c5e305aa91785b7e49a0"
      (some "Admin") (some "zabbix") none false =
    .ok ({ session_id := some "cc364fb50199c5e305aa91785b7e49a0", token := none },
      ["user.login"]) := by decide
example :
    mkZabbixAPI ⟨6, 4, 0, ""⟩ "cc364fb50199c5e305aa91785b7e49a0"
      none none none false =
    .ok ({ session_id := none, token := none }, []) := by decide
example :
    ZabbixAPI.login ⟨6, 4, 0, ""⟩ "cc364fb50199c5e305aa91785b7e49a0"
      none none none = .error .ProcessingException := by decide
example :
    mkZabbixAPI ⟨5, 2, 0, ""⟩ "cc364fb50199c5e305aa91785b7e49a0"
      none none (some "oTmtWu") false = .error .ZabbixAPINotSupported := by decide
example :
    mkZabbixAPI ⟨5, 2, 0, ""⟩ "cc364fb50199c5e305aa91785b7e49a0"
      (some "Admin") (some "zabbix") (some "oTmtWu") false =
    .ok ({ session_id := some "cc364fb50199c5e305aa91785b7e49a0", token := some "oTmtWu" },
      ["user.login"]) := by decide
example :
    mkZabbixAPI ⟨5, 4, 0, ""⟩ "cc364fb50199c5e305aa91785b7e49a0"
      none none (some "oTmtWu") false =
    .ok ({ session_id := some "oTmtWu", token := some "oTmtWu" }, []) := by decide
example :
    mkZabbixAPI ⟨6, 6, 0, ""⟩ "s" none none none false = .error .ZabbixAPINotSupported := by decide
example :
    mkZabbixAPI ⟨6, 6, 0, ""⟩ "s" none none none true =
    .ok ({ session_id := none, token := none }, []) := by decide
example :
    mkZabbixAPI ⟨4, 8, 0, ""⟩ "s" none none none false = .error .ZabbixAPINotSupported := by decide
example :
    ZabbixAPI.logout { session_id := some "oTmtWu", token := some "oTmtWu" } =
    ({ session_id := none, token := none }, []) := by decide
example :
    ZabbixAPI.logout { session_id := some "cc364fb50199c5e305aa91785b7e49a0", token := none } =
    ({ session_id := none, token := none }, ["user.logout"]) := by decide

/-- C4 counterexample: the version "7.0.30" — named in the claim itself —
parses with patch (minor) component 30, yet `is_lts` returns `true`
exactly as the repository test demands, so "is_lts iff minor = 0 and
int(major) >= 7" is false on the code: the minor component is 30, not 0. -/
theorem C4_counterexample :
    parseVersion "7.0.30" = some ⟨7, 0, 30, ""⟩ ∧
    ZabbixAPIVersion.is_lts ⟨7, 0, 30, ""⟩ = true ∧
    ZabbixAPIVersion.minor ⟨7, 0, 30, ""⟩ ≠ 0 :=
  ⟨by decide, by decide, by decide⟩

/-- C4 (amended): `is_lts(v)` is true iff the `major` value of `v` is an
integer at least 7 — equivalently the second dot-component is 0 and the
first is at least 7; the patch (minor) component is ignored.  On the
versions the test evaluates: "6.0.10alpha", "6.2.0" and "6.4.5" are not
LTS while "7.0.0" and "7.0.30" are. -/
theorem C4_is_lts_iff_integral_major_ge_seven :
    (∀ v : ZabbixAPIVersion,
      v.is_lts = true ↔ ∃ n : ℕ, v.major = (n : ℚ) ∧ 7 ≤ n) ∧
    (parseVersion "6.0.10alpha").map ZabbixAPIVersion.is_lts = some false ∧
    (parseVersion "6.2.0").map ZabbixAPIVersion.is_lts = some false ∧
    (parseVersion "6.4.5").map ZabbixAPIVersion.is_lts = some false ∧
    (parseVersion "7.0.0").map ZabbixAPIVersion.is_lts = some true ∧
    (parseVersion "7.0.30").map ZabbixAPIVersion.is_lts = some true := by
  refine ⟨?_, by decide, by decide, by decide, by decide, by decide⟩
  intro v
  constructor
  · intro h
    rw [ZabbixAPIVersion.is_lts, Bool.and_eq_true, beq_iff_eq, decide_eq_true_eq] at h
    refine ⟨v.first, ?_, h.2⟩
    rw [major_eq_add_div, h.1]
    simp
  · rintro ⟨n, hmaj, hn⟩
    rw [major_eq_add_div] at hmaj
    have hdpos : (0 : ℚ) < 10 ^ numDigits v.second := by positivity
    have hlt1 : (v.second : ℚ) / 10 ^ numDigits v.second < 1 := by
      rw [div_lt_one hdpos]
      exact_mod_cast lt_ten_pow_numDigits v.second
    have hge0 : (0 : ℚ) ≤ (v.second : ℚ) / 10 ^ numDigits v.second := by positivity
    have h1 : (v.first : ℚ) ≤ (n : ℚ) := by linarith
    have h2 : (n : ℚ) < (v.first : ℚ) + 1 := by linarith
    have hfle : v.first ≤ n := by exact_mod_cast h1
    have hnlt : n < v.first + 1 := by exact_mod_cast h2
    have hfn : n = v.first := by omega
    subst hfn
    have hfrac0 : (v.second : ℚ) / 10 ^ numDigits v.second = 0 := by linarith
    have hsec : v.second = 0 := by
      rcases div_eq_zero_iff.mp hfrac0 with h | h
      · exact_mod_cast h
      · exact absurd h hdpos.ne'
    rw [ZabbixAPIVersion.is_lts, Bool.and_eq_true, beq_iff_eq, decide_eq_true_eq]
    exact ⟨hsec, hn⟩

/-- C7: version parsing accepts exactly the strings made of three
dot-separated non-empty digit runs followed by a digit-free tail;
"6.0" (two components) and "7" (bare integer) are rejected, while
"7.0.0alpha" parses with major 7.0, minor 0 and text "alpha". -/
theorem C7_parse_accepts_exactly_three_component_versions :
    (∀ s : String, (parseVersion s).isSome = true ↔
      ∃ a b c t : List Char,
        s.toList = a ++ ('.' :: (b ++ ('.' :: (c ++ t)))) ∧
        a ≠ [] ∧ (∀ x ∈ a, x.isDigit = true) ∧
        b ≠ [] ∧ (∀ x ∈ b, x.isDigit = true) ∧
        c ≠ [] ∧ (∀ x ∈ c, x.isDigit = true) ∧
        (∀ x ∈ t, x.isDigit = false)) ∧
    parseVersion "6.0" = none ∧
    parseVersion "7" = none ∧
    (parseVersion "7.0.0alpha").map ZabbixAPIVersion.major = some 7 ∧
    (parseVersion "7.0.0alpha").map ZabbixAPIVersion.minor = some 0 ∧
    (parseVersion "7.0.0alpha").map ZabbixAPIVersion.text = some "alpha" :=
  ⟨parse_shape, by decide, by decide, by decide, by decide, by decide⟩

/-- C8 counterexample: the claim says a comparison against a plain
number compares the `major` value against that number, but on the
test-pinned input `ZabbixAPIVersion("6.4.1") > 6` the code answers
`False` even though the major value 6.4 is greater than 6: an integer
operand is compared against the integer first component only. -/
theorem C8_counterexample :
    parseVersion "6.4.1" = some ⟨6, 4, 1, ""⟩ ∧
    ZabbixAPIVersion.compare ⟨6, 4, 1, ""⟩ .gt (.int 6) = .ok false ∧
    (6 : ℚ) < ZabbixAPIVersion.major ⟨6, 4, 1, ""⟩ :=
  ⟨by decide, by decide, by decide⟩

/-- C8 (amended): version-to-version equality compares `major` values
only (patch and text ignored); a float operand is compared against
`major`; an int operand is compared against the integer first component
(not the full major); dicts, lists and strings that do not parse as a
full version raise `TypeError`, while a string that parses as a full
version — such as "6.0.0" — is accepted and compared. -/
theorem C8_compare_semantics :
    (∀ a b : ZabbixAPIVersion,
      a.compare .eq (.ver b) = .ok true ↔ a.major = b.major) ∧
    (∀ (a : ZabbixAPIVersion) (q : ℚ),
      a.compare .lt (.float q) = .ok true ↔ a.major < q) ∧
    (∀ (a : ZabbixAPIVersion) (n : Int),
      a.compare .gt (.int n) = .ok true ↔ n < (a.first : Int)) ∧
    (∀ (a : ZabbixAPIVersion) (op : CmpOp),
      a.compare op .dict = .error .typeError ∧
      a.compare op .list = .error .typeError) ∧
    (∀ (a : ZabbixAPIVersion) (op : CmpOp) (s : String),
      parseVersion s = none → a.compare op (.str s) = .error .typeError) ∧
    ZabbixAPIVersion.compare ⟨6, 0, 0, ""⟩ .eq (.str "6.0.0") = .ok true := by
  refine ⟨?_, ?_, ?_, ?_, ?_, by decide⟩
  · intro a b
    simp [ZabbixAPIVersion.compare, CmpOp.onRat]
  · intro a q
    simp [ZabbixAPIVersion.compare, CmpOp.onRat]
  · intro a n
    simp [ZabbixAPIVersion.compare, CmpOp.onInt]
  · intro a op
    exact ⟨rfl, rfl⟩
  · intro a op s h
    simp [ZabbixAPIVersion.compare, h]

/-- C8 witness: the comparison `ZabbixAPIVersion("6.0.0") <= "7.0"` of
the test raises `TypeError` because "7.0" does not parse as a version. -/
theorem C8_witness :
    parseVersion "7.0" = none ∧
    ZabbixAPIVersion.compare ⟨6, 0, 0, ""⟩ .le (.str "7.0") = .error .typeError :=
  ⟨by decide, C8_compare_semantics.2.2.2.2.1 ⟨6, 0, 0, ""⟩ .le "7.0" (by decide)⟩

/-- C5 counterexample: on the claim's own literal input, `mask` keeps
the first four and last four characters ("ZWva…990f", eight visible
characters), not the ceil(4/2)-character prefix and (4/2)-character
suffix ("ZW…0f", four visible characters) that the claim's general
formula prescribes. -/
theorem C5_counterexample :
    secreter "ZWvaGS5SzNGaR990f" 4 = "ZWva" ++ HIDINGMASK ++ "990f" ∧
    secreter "ZWvaGS5SzNGaR990f" 4 ≠ "ZW" ++ HIDINGMASK ++ "0f" :=
  ⟨by decide, by decide⟩

/-- C5 (amended): `mask(s, 0)` returns `s` unchanged; for
`show_len > 0`, a string with `2·len < 3·show_len` collapses to the
mask token alone, and otherwise the result is the first `show_len`
characters, the mask token, and the last `show_len` characters —
`2·show_len` visible characters in total.  The literal cases hold:
`mask("lZSwaQ", 5)` is the full mask token and
`mask("ZWvaGS5SzNGaR990f", 4)` is "ZWva<MASK>990f". -/
theorem C5_mask_keeps_show_len_each_side (s : String) (n : Nat) :
    secreter s 0 = s ∧
    (n ≠ 0 → 2 * s.length < 3 * n → secreter s n = HIDINGMASK) ∧
    (n ≠ 0 → 3 * n ≤ 2 * s.length →
      secreter s n = String.mk (s.toList.take n) ++ HIDINGMASK ++
        String.mk (s.toList.drop (s.length - n))) ∧
    secreter "lZSwaQ" 5 = HIDINGMASK ∧
    secreter "ZWvaGS5SzNGaR990f" 4 = "ZWva" ++ HIDINGMASK ++ "990f" := by
  refine ⟨by simp [secreter], ?_, ?_, by decide, by decide⟩
  · intro hn hlt
    simp [secreter, hn, hlt]
  · intro hn hle
    have hnlt : ¬(2 * s.length < 3 * n) := by omega
    simp [secreter, hn, hnlt]

/-- C5 witness: the reveal branch of the amended statement evaluated on
the 17-character test string with `show_len = 4`. -/
theorem C5_witness :
    (4 ≠ 0) ∧
    3 * 4 ≤ 2 * ("ZWvaGS5SzNGaR990f" : String).length ∧
    secreter "ZWvaGS5SzNGaR990f" 4 =
      String.mk (("ZWvaGS5SzNGaR990f" : String).toList.take 4) ++ HIDINGMASK ++
        String.mk (("ZWvaGS5SzNGaR990f" : String).toList.drop
          (("ZWvaGS5SzNGaR990f" : String).length - 4)) :=
  ⟨by decide, by decide,
    (C5_mask_keeps_show_len_each_side "ZWvaGS5SzNGaR990f" 4).2.2.1
      (by decide) (by decide)⟩

/-- C6 counterexample: on the 17-character test string with
`max_len = 20` and dots enabled, `truncate` returns the string
unchanged, with no ellipsis, contradicting "the ellipsis marker is
appended regardless of whether truncation actually occurred". -/
theorem C6_counterexample :
    cutter "g5imzEr7TPcBG47fa" 20 true = "g5imzEr7TPcBG47fa" ∧
    cutter "g5imzEr7TPcBG47fa" 20 true ≠ "g5imzEr7TPcBG47fa" ++ "..." :=
  ⟨by decide, by decide⟩

/-- C6 (amended): `truncate` cuts to the first `max_len` characters and
appends the ellipsis only when the flag is set and the original string
was actually longer than `max_len`; a string within the limit comes back
unchanged.  The literal cases hold:
`truncate("ZWvaGS5SzNGaR990f", 4, True)` is "ZWva..." and
`truncate(s, 0, False)` is always the empty string. -/
theorem C6_truncate_appends_dots_only_when_cut (s : String) (n : Nat) (dots : Bool) :
    (s.length ≤ n → cutter s n dots = s) ∧
    (n < s.length →
      cutter s n dots =
        String.mk (s.toList.take n) ++ (if dots then "..." else "")) ∧
    cutter "ZWvaGS5SzNGaR990f" 4 true = "ZWva..." ∧
    cutter s 0 false = "" := by
  refine ⟨?_, ?_, by decide, ?_⟩
  · intro hle
    have hnlt : ¬(n < s.length) := by omega
    simp [cutter, hnlt]
  · intro hlt
    simp [cutter, hlt]
  · by_cases h : 0 < s.length
    · simp [cutter, h]
    · obtain ⟨data⟩ := s
      have h' : ¬(0 < data.length) := h
      have hnil : data = [] := List.length_eq_zero.mp (by omega)
      subst hnil
      rfl

/-- C6 witness: the truncating branch of the amended statement evaluated
on the 34-character test string with `max_len = 20` and dots enabled. -/
theorem C6_witness :
    20 < ("In8y4eGughjBNSqEGPcqzejToVUT3OA4q5" : String).length ∧
    cutter "In8y4eGughjBNSqEGPcqzejToVUT3OA4q5" 20 true =
      String.mk (("In8y4eGughjBNSqEGPcqzejToVUT3OA4q5" : String).toList.take 20) ++
        (if true then "..." else "") :=
  ⟨by decide,
    (C6_truncate_appends_dots_only_when_cut "In8y4eGughjBNSqEGPcqzejToVUT3OA4q5" 20 true).2.1
      (by decide)⟩

/-- C1 counterexample: constructing with only the token "oTmtWu" on the
in-range, token-supporting version 6.4.0 succeeds without a `user.login`
call, but the resulting `session_id` equals the token — it is not
`None`, contrary to the claim (the test asserts
`zapi.session_id == DEFAULT_VALUES["token"]`). -/
theorem C1_counterexample :
    mkZabbixAPI ⟨6, 4, 0, ""⟩ "cc364fb50199c5e305aa91785b7e49a0"
      none none (some "oTmtWu") false =
      .ok ({ session_id := some "oTmtWu", token := some "oTmtWu" }, []) ∧
    (some "oTmtWu" : Option String) ≠ none :=
  ⟨by decide, by decide⟩

/-- C1 (amended): for every client constructed with only a token on an
in-range version that supports token auth, construction succeeds with no
`user.login` call (empty RPC trace), the token is retained in `_token`,
and `session_id` is set to that same token — the token becomes the
active session credential. -/
theorem C1_token_only_construction (ver : ZabbixAPIVersion) (t loginResult : String)
    (hmin : minSupported ≤ ver.major) (hmax : ver.major ≤ maxSupported)
    (htok : tokenSupportVersion ≤ ver.major) :
    mkZabbixAPI ver loginResult none none (some t) false =
      .ok ({ session_id := some t, token := some t }, []) := by
  have h1 : ¬(ver.major < minSupported) := not_lt.mpr hmin
  have h2 : ¬(maxSupported < ver.major) := not_lt.mpr hmax
  simp [mkZabbixAPI, ZabbixAPI.login, h1, h2, htok]

/-- C1 witness: the amended statement evaluated at version 6.4.0 with
the test's token. -/
theorem C1_witness :
    minSupported ≤ ZabbixAPIVersion.major ⟨6, 4, 0, ""⟩ ∧
    ZabbixAPIVersion.major ⟨6, 4, 0, ""⟩ ≤ maxSupported ∧
    tokenSupportVersion ≤ ZabbixAPIVersion.major ⟨6, 4, 0, ""⟩ ∧
    mkZabbixAPI ⟨6, 4, 0, ""⟩ "cc364fb50199c5e305aa91785b7e49a0"
      none none (some "oTmtWu") false =
      .ok ({ session_id := some "oTmtWu", token := some "oTmtWu" }, []) :=
  ⟨by decide, by decide, by decide,
    C1_token_only_construction ⟨6, 4, 0, ""⟩ "oTmtWu"
      "cc364fb50199c5e305aa91785b7e49a0" (by decide) (by decide) (by decide)⟩

/-- C2: for every fetched version whose major value lies below the
minimum or above the maximum supported boundary, construction fails with
`ZabbixAPINotSupported` (the spec's `UnsupportedVersion`) whatever
credentials were supplied — the error carries no state, so no partial
session object exists — while the same out-of-range version with
`skip_version_check=True` (and, as in the cited test, no credentials)
constructs successfully. -/
theorem C2_version_gate (ver : ZabbixAPIVersion) (loginResult : String)
    (user password token : Option String)
    (hout : ver.major < minSupported ∨ maxSupported < ver.major) :
    mkZabbixAPI ver loginResult user password token false =
      .error .ZabbixAPINotSupported ∧
    mkZabbixAPI ver loginResult none none none true =
      .ok ({ session_id := none, token := none }, []) := by
  constructor
  · unfold mkZabbixAPI
    rw [if_pos ⟨by simp, hout⟩]
  · simp [mkZabbixAPI]

/-- C2 witness: the gate evaluated at version 6.6.0 (above the 6.4
maximum) with user/password credentials for the failing part and no
credentials for the skipping part. -/
theorem C2_witness :
    (ZabbixAPIVersion.major ⟨6, 6, 0, ""⟩ < minSupported ∨
      maxSupported < ZabbixAPIVersion.major ⟨6, 6, 0, ""⟩) ∧
    mkZabbixAPI ⟨6, 6, 0, ""⟩ "cc364fb50199c5e305aa91785b7e49a0"
      (some "Admin") (some "zabbix") none false = .error .ZabbixAPINotSupported ∧
    mkZabbixAPI ⟨6, 6, 0, ""⟩ "cc364fb50199c5e305aa91785b7e49a0"
      none none none true = .ok ({ session_id := none, token := none }, []) :=
  ⟨by decide,
    (C2_version_gate ⟨6, 6, 0, ""⟩ "cc364fb50199c5e305aa91785b7e49a0"
      (some "Admin") (some "zabbix") none (by decide)).1,
    (C2_version_gate ⟨6, 6, 0, ""⟩ "cc364fb50199c5e305aa91785b7e49a0"
      (some "Admin") (some "zabbix") none (by decide)).2⟩

/-- C3 counterexample: constructing `ZabbixAPI()` with neither token nor
user/password on the in-range version 6.4.0 does NOT raise — it returns
an unauthenticated client with `session_id` absent, exactly as the test
does twice (`zapi = ZabbixAPI(**{})` and `with ZabbixAPI() as zapi`);
only the subsequent `login()` call raises `ProcessingException`. -/
theorem C3_counterexample :
    mkZabbixAPI ⟨6, 4, 0, ""⟩ "cc364fb50199c5e305aa91785b7e49a0"
      none none none false =
      .ok ({ session_id := none, token := none }, []) ∧
    (.ok ({ session_id := none, token := none }, []) :
      Except ZabbixError (ZabbixAPI × List String)) ≠ .error .ProcessingException :=
  ⟨by decide, by decide⟩

/-- C3 (amended): with neither a token nor a user/password pair,
construction on an in-range version succeeds unauthenticated
(`session_id` and `_token` both absent, no RPC issued), and it is the
post-construction `login()` call with no arguments that fails with
`ProcessingException`. -/
theorem C3_no_credentials (ver : ZabbixAPIVersion) (loginResult : String)
    (hmin : minSupported ≤ ver.major) (hmax : ver.major ≤ maxSupported) :
    mkZabbixAPI ver loginResult none none none false =
      .ok ({ session_id := none, token := none }, []) ∧
    ZabbixAPI.login ver loginResult none none none = .error .ProcessingException := by
  have h1 : ¬(ver.major < minSupported) := not_lt.mpr hmin
  have h2 : ¬(maxSupported < ver.major) := not_lt.mpr hmax
  exact ⟨by simp [mkZabbixAPI, h1, h2], rfl⟩

/-- C3 witness: the amended statement evaluated at version 6.4.0. -/
theorem C3_witness :
    minSupported ≤ ZabbixAPIVersion.major ⟨6, 4, 0, ""⟩ ∧
    ZabbixAPIVersion.major ⟨6, 4, 0, ""⟩ ≤ maxSupported ∧
    (mkZabbixAPI ⟨6, 4, 0, ""⟩ "cc364fb50199c5e305aa91785b7e49a0"
      none none none false = .ok ({ session_id := none, token := none }, []) ∧
     ZabbixAPI.login ⟨6, 4, 0, ""⟩ "cc364fb50199c5e305aa91785b7e49a0"
      none none none = .error .ProcessingException) :=
  ⟨by decide, by decide,
    C3_no_credentials ⟨6, 4, 0, ""⟩ "cc364fb50199c5e305aa91785b7e49a0"
      (by decide) (by decide)⟩

/-- C9: after `logout()` both `session_id` and `_token` are absent
whatever credential (token, login session, both, or none) was active
before, and on an already unauthenticated client `logout()` is a no-op —
it changes nothing and issues no RPC (and, being total, never raises). -/
theorem C9_logout_clears_both (z : ZabbixAPI) :
    (z.logout.1.session_id = none ∧ z.logout.1.token = none) ∧
    (z.session_id = none → z.token = none → z.logout = (z, [])) := by
  obtain ⟨sid, tok⟩ := z
  constructor
  · cases sid <;> cases tok <;> simp [ZabbixAPI.logout]
  · intro h1 h2
    simp only at h1 h2
    subst h1
    subst h2
    rfl

/-- C9 witness: the clearing parts evaluated on a token-authenticated
client and the no-op part on an unauthenticated one. -/
theorem C9_witness :
    ((ZabbixAPI.logout { session_id := some "oTmtWu", token := some "oTmtWu" }).1.session_id = none ∧
     (ZabbixAPI.logout { session_id := some "oTmtWu", token := some "oTmtWu" }).1.token = none) ∧
    ZabbixAPI.logout { session_id := none, token := none } =
      ({ session_id := none, token := none }, []) :=
  ⟨(C9_logout_clears_both { session_id := some "oTmtWu", token := some "oTmtWu" }).1,
   (C9_logout_clears_both { session_id := none, token := none }).2 rfl rfl⟩

/-- C10: `SensitiveFilter.filter` returns 1 for every record (no record
is ever suppressed), replaces `record.msg` by its redacted form, and
rewrites exactly the string-typed elements of `record.args` through the
redaction while leaving every non-string element unchanged (the map is
the identity when `args` is empty, where the code skips the rewrite). -/
theorem C10_filter_redacts_and_keeps (f : SensitiveFilter) (r : LogRecord) :
    (f.filter r).2 = 1 ∧
    (f.filter r).1.msg = f.hide_data r.msg ∧
    (f.filter r).1.args = r.args.map fun a =>
      match a with
      | .str s => .str (f.hide_data s)
      | .other n => .other n := by
  obtain ⟨msg, args⟩ := r
  cases args with
  | nil => exact ⟨rfl, rfl, rfl⟩
  | cons a as => exact ⟨rfl, rfl, rfl⟩
